import Mathlib

/-!
Shallow embedding of the image-captioning application in src/app.py.

External libraries (the BLIP processor and model, PIL, requests, torch and
streamlit) are modelled as environments: records of Except-valued functions
standing for the external calls the application makes, where an error value
stands for the exception the call raises, carrying the message of the exception.
The functions of the application itself are translated line by line from the
source; each also returns a trace of the external calls it performed, so that
properties about which calls were made, and with which arguments, can be
stated.
-/

set_option autoImplicit false

namespace AIImageCaptioner

/-- An in-memory PIL image: a color-mode attribute plus an opaque payload
identifier standing for the pixel data. -/
structure PILImage where
  mode : String
  payload : Nat
  deriving Repr, DecidableEq

/-- The tensor inputs produced by the processor from an image (opaque). -/
structure Inputs where
  id : Nat
  deriving Repr, DecidableEq

/-- The BLIP feature processor (opaque handle). -/
structure BlipProcessor where
  id : Nat
  deriving Repr, DecidableEq

/-- The BLIP conditional-generation model (opaque handle). -/
structure BlipModel where
  id : Nat
  deriving Repr, DecidableEq

/-- The configuration under which model.generate is invoked: whether gradient
tracking is disabled (the call sits under torch.no_grad) and the max_length
argument. -/
structure GenConfig where
  noGrad : Bool
  maxLength : Nat
  deriving Repr, DecidableEq

/-- Environment for the caption pipeline: the behavior of the external calls
generate_caption makes. Each function either returns a value or raises an
exception with the given message. -/
structure CaptionEnv where
  convert : PILImage → String → Except String PILImage
  process : PILImage → Except String Inputs
  generate : Inputs → GenConfig → Except String (List (List Nat))
  decode : List Nat → Bool → Except String String

/-- One external call made by the caption pipeline, as recorded in a trace. -/
inductive Event where
  | convertCall (img : PILImage) (target : String)
  | processCall (img : PILImage)
  | generateCall (inputs : Inputs) (cfg : GenConfig)
  | decodeCall (tokens : List Nat) (skipSpecial : Bool)
  deriving Repr, DecidableEq

/-- Steps 2 to 4 of generate_caption (src/app.py lines 42 to 48): run the
processor on the image, call model.generate under torch.no_grad with
max_length 50, index the first generated sequence, and decode it with
skip_special_tokens True. Returns the outcome of the try-block body together
with the trace of external calls made. -/
def generate_caption_core (env : CaptionEnv) (image : PILImage) :
    Except String String × List Event :=
  match env.process image with
  | Except.error e => (Except.error e, [Event.processCall image])
  | Except.ok inputs =>
    match env.generate inputs ⟨true, 50⟩ with
    | Except.error e =>
        (Except.error e, [Event.processCall image, Event.generateCall inputs ⟨true, 50⟩])
    | Except.ok out =>
      match out with
      | [] =>
          (Except.error "list index out of range",
            [Event.processCall image, Event.generateCall inputs ⟨true, 50⟩])
      | first :: _ =>
        match env.decode first true with
        | Except.error e =>
            (Except.error e,
              [Event.processCall image, Event.generateCall inputs ⟨true, 50⟩,
                Event.decodeCall first true])
        | Except.ok caption =>
            (Except.ok caption,
              [Event.processCall image, Event.generateCall inputs ⟨true, 50⟩,
                Event.decodeCall first true])

/-- The body of the try-block of generate_caption (src/app.py lines 37 to 48):
step 1, the color-mode check and RGB conversion, followed by the core steps. -/
def generate_caption_run (env : CaptionEnv) (image : PILImage) :
    Except String String × List Event :=
  if image.mode ≠ "RGB" then
    match env.convert image "RGB" with
    | Except.error e => (Except.error e, [Event.convertCall image "RGB"])
    | Except.ok converted =>
        ((generate_caption_core env converted).1,
          Event.convertCall image "RGB" :: (generate_caption_core env converted).2)
  else
    generate_caption_core env image

/-- generate_caption (src/app.py lines 34 to 50): the try-block body wrapped
in the except clause that formats any exception as an error string. -/
def generate_caption (env : CaptionEnv) (image : PILImage) : String :=
  match (generate_caption_run env image).1 with
  | Except.ok caption => caption
  | Except.error e => "Error generating caption: " ++ e

/-- An HTTP response: status code and body bytes. -/
structure HttpResponse where
  status : Nat
  content : List Nat
  deriving Repr, DecidableEq

/-- Environment for load_image_from_url: requests.get (whose error value is a
requests.RequestException, covering transport failures and timeouts) and
PIL.Image.open on the fetched bytes (whose error value is any other
exception, e.g. an image-decode failure). -/
structure NetEnv where
  get : String → Nat → Except String HttpResponse
  imageOpen : List Nat → Except String PILImage

/-- Modelled from the documented semantics of requests (external library):
Response.raise_for_status raises an HTTPError, which is a RequestException,
exactly when the status code is 4xx or 5xx, with a message naming the code. -/
def raise_for_status (r : HttpResponse) : Except String Unit :=
  if 400 ≤ r.status ∧ r.status ≤ 599 then
    Except.error (toString r.status ++ " Error for url")
  else
    Except.ok ()

/-- load_image_from_url (src/app.py lines 52 to 62), together with the trace
of (url, timeout) arguments of the requests.get calls it performed. A
RequestException from the get call or from raise_for_status is formatted as a
fetching error; any other exception, in particular a decode failure in
Image.open, is formatted as an opening error. -/
def load_image_from_url_run (env : NetEnv) (url : String) :
    (Option PILImage × Option String) × List (String × Nat) :=
  match env.get url 10 with
  | Except.error e => ((none, some ("Error fetching image: " ++ e)), [(url, 10)])
  | Except.ok response =>
    match raise_for_status response with
    | Except.error e => ((none, some ("Error fetching image: " ++ e)), [(url, 10)])
    | Except.ok _ =>
      match env.imageOpen response.content with
      | Except.error e => ((none, some ("Error opening image: " ++ e)), [(url, 10)])
      | Except.ok image => ((some image, none), [(url, 10)])

/-- load_image_from_url, result only. -/
def load_image_from_url (env : NetEnv) (url : String) :
    Option PILImage × Option String :=
  (load_image_from_url_run env url).1

/-- Environment for load_model: the two from_pretrained constructors, each of
which either returns a handle or raises with the given message. -/
structure ModelEnv where
  processorFromPretrained : String → Except String BlipProcessor
  modelFromPretrained : String → Except String BlipModel

/-- load_model (src/app.py lines 24 to 32), together with the list of error
messages displayed through st.error. On any exception from either constructor
it returns the sentinel pair (None, None) and displays one formatted error
message; on success it returns the constructed pair and displays nothing. -/
def load_model_run (env : ModelEnv) :
    (Option BlipProcessor × Option BlipModel) × List String :=
  match env.processorFromPretrained "Salesforce/blip-image-captioning-base" with
  | Except.error e => ((none, none), ["Error loading model: " ++ e])
  | Except.ok processor =>
    match env.modelFromPretrained "Salesforce/blip-image-captioning-base" with
    | Except.error e => ((none, none), ["Error loading model: " ++ e])
    | Except.ok model => ((some processor, some model), [])

/-- load_model, result only. -/
def load_model (env : ModelEnv) : Option BlipProcessor × Option BlipModel :=
  (load_model_run env).1

/-- The value memoized by the st.cache_resource decorator on load_model:
whatever load_model returns, including the (None, None) sentinel. -/
abbrev ModelHandle := Option BlipProcessor × Option BlipModel

/-- Modelled from the spec: the streamlit st.cache_resource decorator (external
library, applied to load_model at src/app.py line 23) memoizes the decorated
function process-wide with no eviction, refresh or invalidation; the wrapped
body runs only when no cached value exists, and the stored value is returned
to every later caller. Returns the value handed to the caller, the cache
afterwards, and how often the body was invoked. -/
def cache_resource (body : Unit → ModelHandle) :
    Option ModelHandle → ModelHandle × Option ModelHandle × Nat
  | some v => (v, some v, 0)
  | none => (body (), some (body ()), 1)

/-- A process lifetime with n caption requests: each request first obtains the
model handle through the cached load_model, as the streamlit script rerun does
on every interaction. Returns the handle each request used and the total
number of times the load_model body ran. -/
def caption_session (env : ModelEnv) : Nat → Option ModelHandle → List ModelHandle × Nat
  | 0, _ => ([], 0)
  | n + 1, cache =>
    match cache_resource (fun _ => load_model env) cache with
    | (v, cache2, k) =>
      match caption_session env n cache2 with
      | (rest, k2) => (v :: rest, k + k2)

/-- The outcome of the top-level model-loading section (src/app.py lines 64 to
72): if either component of the memoized load_model result is absent, st.error
displays a message and st.stop halts the script; otherwise the script keeps
running with the loaded pair. -/
inductive AppStart where
  | halted (msg : String)
  | running (processor : BlipProcessor) (model : BlipModel)
  deriving Repr, DecidableEq

/-- The top-level startup flow of src/app.py lines 64 to 72. -/
def app_startup (env : ModelEnv) : AppStart :=
  match load_model env with
  | (some processor, some model) => AppStart.running processor model
  | _ =>
      AppStart.halted
        "Failed to load the model. Please refresh the page or check your internet connection."

/-- The captions produced in one session: none at all when startup halted,
otherwise one generate_caption result per acquired image (the per-tab
handlers at src/app.py lines 97, 128 and 153 all call generate_caption on the
acquired image with the shared handle). -/
def app_captions (menv : ModelEnv) (cenv : CaptionEnv)
    (requests : List PILImage) : List String :=
  match app_startup menv with
  | AppStart.halted _ => []
  | AppStart.running _ _ => requests.map (fun image => generate_caption cenv image)

/-- A sequence of generate_caption invocations in one session, in order; the
source threads no state between them, so each is a fresh call. -/
def session_captions (env : CaptionEnv) : List PILImage → List String
  | [] => []
  | image :: rest => generate_caption env image :: session_captions env rest

/-! ## Helper characterizations of the caption pipeline -/

/-- Complete case analysis of steps 2 to 4 of the pipeline: the five possible
outcomes of the try-block core, each with its exact result and trace. -/
theorem caption_core_cases (env : CaptionEnv) (image : PILImage) :
    (∃ e, env.process image = Except.error e ∧
      generate_caption_core env image = (Except.error e, [Event.processCall image])) ∨
    (∃ inputs e, env.process image = Except.ok inputs ∧
      env.generate inputs ⟨true, 50⟩ = Except.error e ∧
      generate_caption_core env image =
        (Except.error e,
          [Event.processCall image, Event.generateCall inputs ⟨true, 50⟩])) ∨
    (∃ inputs, env.process image = Except.ok inputs ∧
      env.generate inputs ⟨true, 50⟩ = Except.ok [] ∧
      generate_caption_core env image =
        (Except.error "list index out of range",
          [Event.processCall image, Event.generateCall inputs ⟨true, 50⟩])) ∨
    (∃ inputs first rest e, env.process image = Except.ok inputs ∧
      env.generate inputs ⟨true, 50⟩ = Except.ok (first :: rest) ∧
      env.decode first true = Except.error e ∧
      generate_caption_core env image =
        (Except.error e,
          [Event.processCall image, Event.generateCall inputs ⟨true, 50⟩,
            Event.decodeCall first true])) ∨
    (∃ inputs first rest c, env.process image = Except.ok inputs ∧
      env.generate inputs ⟨true, 50⟩ = Except.ok (first :: rest) ∧
      env.decode first true = Except.ok c ∧
      generate_caption_core env image =
        (Except.ok c,
          [Event.processCall image, Event.generateCall inputs ⟨true, 50⟩,
            Event.decodeCall first true])) := by
  rcases hp : env.process image with e | inputs
  · exact Or.inl ⟨e, rfl, by simp [generate_caption_core, hp]⟩
  · rcases hg : env.generate inputs ⟨true, 50⟩ with e | out
    · exact Or.inr (Or.inl ⟨inputs, e, rfl, hg, by simp [generate_caption_core, hp, hg]⟩)
    · rcases out with _ | ⟨first, rest⟩
      · exact Or.inr (Or.inr (Or.inl ⟨inputs, rfl, hg, by
          simp [generate_caption_core, hp, hg]⟩))
      · rcases hd : env.decode first true with e | c
        · exact Or.inr (Or.inr (Or.inr (Or.inl ⟨inputs, first, rest, e, rfl, hg, hd, by
            simp [generate_caption_core, hp, hg, hd]⟩)))
        · exact Or.inr (Or.inr (Or.inr (Or.inr ⟨inputs, first, rest, c, rfl, hg, hd, by
            simp [generate_caption_core, hp, hg, hd]⟩)))

/-- Complete case analysis of step 1 of the pipeline: the try-block body is
the core when the image is already RGB, and otherwise either stops at a
conversion exception or runs the core on the converted image. -/
theorem caption_run_cases (env : CaptionEnv) (image : PILImage) :
    (image.mode = "RGB" ∧
      generate_caption_run env image = generate_caption_core env image) ∨
    (image.mode ≠ "RGB" ∧ ∃ e, env.convert image "RGB" = Except.error e ∧
      generate_caption_run env image =
        (Except.error e, [Event.convertCall image "RGB"])) ∨
    (image.mode ≠ "RGB" ∧ ∃ converted, env.convert image "RGB" = Except.ok converted ∧
      generate_caption_run env image =
        ((generate_caption_core env converted).1,
          Event.convertCall image "RGB" :: (generate_caption_core env converted).2)) := by
  by_cases hm : image.mode = "RGB"
  · exact Or.inl ⟨hm, by simp [generate_caption_run, hm]⟩
  · rcases hc : env.convert image "RGB" with e | converted
    · exact Or.inr (Or.inl ⟨hm, e, rfl, by simp [generate_caption_run, hm, hc]⟩)
    · exact Or.inr (Or.inr ⟨hm, converted, rfl, by simp [generate_caption_run, hm, hc]⟩)

/-- Every processor call recorded by the core is on the image the core was
given. -/
theorem processCall_mem_core (env : CaptionEnv) (image p : PILImage)
    (h : Event.processCall p ∈ (generate_caption_core env image).2) : p = image := by
  rcases caption_core_cases env image with
      ⟨e, _, hc⟩ | ⟨i, e, _, _, hc⟩ | ⟨i, _, _, hc⟩ |
      ⟨i, f, r, e, _, _, _, hc⟩ | ⟨i, f, r, c, _, _, _, hc⟩ <;>
    rw [hc] at h <;> simpa using h

/-- The core never records a conversion call. -/
theorem convertCall_not_mem_core (env : CaptionEnv) (image i : PILImage) (t : String) :
    Event.convertCall i t ∉ (generate_caption_core env image).2 := by
  rcases caption_core_cases env image with
      ⟨e, _, hc⟩ | ⟨j, e, _, _, hc⟩ | ⟨j, _, _, hc⟩ |
      ⟨j, f, r, e, _, _, _, hc⟩ | ⟨j, f, r, c, _, _, _, hc⟩ <;>
    rw [hc] <;> simp

/-- Every generate call recorded by the core carries the config with gradient
tracking disabled and max_length 50, and its inputs come from the processor. -/
theorem generateCall_mem_core (env : CaptionEnv) (image : PILImage)
    (inputs : Inputs) (cfg : GenConfig)
    (h : Event.generateCall inputs cfg ∈ (generate_caption_core env image).2) :
    cfg = ⟨true, 50⟩ ∧ env.process image = Except.ok inputs := by
  rcases caption_core_cases env image with
      ⟨e, hp, hc⟩ | ⟨i, e, hp, hg, hc⟩ | ⟨i, hp, hg, hc⟩ |
      ⟨i, f, r, e, hp, hg, hd, hc⟩ | ⟨i, f, r, c, hp, hg, hd, hc⟩ <;>
    rw [hc] at h <;> simp at h
  · exact ⟨h.2, h.1 ▸ hp⟩
  · exact ⟨h.2, h.1 ▸ hp⟩
  · exact ⟨h.2, h.1 ▸ hp⟩
  · exact ⟨h.2, h.1 ▸ hp⟩

/-- Every decode call recorded by the core has skip_special_tokens True and
decodes the head of a sequence list that model.generate returned under the
no_grad, max_length 50 config. -/
theorem decodeCall_mem_core (env : CaptionEnv) (image : PILImage)
    (toks : List Nat) (skip : Bool)
    (h : Event.decodeCall toks skip ∈ (generate_caption_core env image).2) :
    skip = true ∧ ∃ inputs out, env.process image = Except.ok inputs ∧
      env.generate inputs ⟨true, 50⟩ = Except.ok out ∧ out.head? = some toks := by
  rcases caption_core_cases env image with
      ⟨e, hp, hc⟩ | ⟨i, e, hp, hg, hc⟩ | ⟨i, hp, hg, hc⟩ |
      ⟨i, f, r, e, hp, hg, hd, hc⟩ | ⟨i, f, r, c, hp, hg, hd, hc⟩ <;>
    rw [hc] at h <;> simp at h
  · exact ⟨h.2, i, f :: r, hp, hg, by rw [h.1]; rfl⟩
  · exact ⟨h.2, i, f :: r, hp, hg, by rw [h.1]; rfl⟩

/-- When the core succeeds, the returned caption is exactly the result of a
recorded decode call with skip_special_tokens True. -/
theorem core_ok_decode (env : CaptionEnv) (image : PILImage) (c : String)
    (h : (generate_caption_core env image).1 = Except.ok c) :
    ∃ toks, Event.decodeCall toks true ∈ (generate_caption_core env image).2 ∧
      env.decode toks true = Except.ok c := by
  rcases caption_core_cases env image with
      ⟨e, hp, hc⟩ | ⟨i, e, hp, hg, hc⟩ | ⟨i, hp, hg, hc⟩ |
      ⟨i, f, r, e, hp, hg, hd, hc⟩ | ⟨i, f, r, c2, hp, hg, hd, hc⟩ <;>
    rw [hc] at h <;> simp at h
  exact ⟨f, by rw [hc]; simp, by rw [hd, h]⟩

/-! ## Claim theorems -/

/-- C1: for every image input and model handle, generate_caption never raises
past its boundary and always returns a string: either the caption the
try-block produced, or, when an exception with message e occurred inside the
pipeline body, exactly the string "Error generating caption: " followed by e. -/
theorem generate_caption_total_error_boundary (env : CaptionEnv) (image : PILImage) :
    (∃ c, (generate_caption_run env image).1 = Except.ok c ∧
      generate_caption env image = c) ∨
    (∃ e, (generate_caption_run env image).1 = Except.error e ∧
      generate_caption env image = "Error generating caption: " ++ e) := by
  cases h : (generate_caption_run env image).1 with
  | ok c => exact Or.inl ⟨c, rfl, by simp [generate_caption, h]⟩
  | error e => exact Or.inr ⟨e, rfl, by simp [generate_caption, h]⟩

/-- C10: an exception raised during step 1 (the RGB conversion itself, e.g. on
a closed or corrupt image object) is also caught and formatted as an
"Error generating caption: " string: the error boundary encloses the entire
pipeline body, not just steps 2 to 4. -/
theorem generate_caption_step1_caught (env : CaptionEnv) (image : PILImage)
    (e : String) (hmode : image.mode ≠ "RGB")
    (hconv : env.convert image "RGB" = Except.error e) :
    generate_caption env image = "Error generating caption: " ++ e := by
  simp [generate_caption, generate_caption_run, hmode, hconv]

/-- A caption environment whose RGB conversion raises. -/
def convFailEnv : CaptionEnv :=
  ⟨fun _ _ => Except.error "closed image", fun _ => Except.ok ⟨0⟩,
    fun _ _ => Except.ok [[0]], fun _ _ => Except.ok "fine"⟩

/-- Witness for C10: on a grayscale image whose conversion raises with message
"closed image", generate_caption returns the formatted error string. -/
theorem generate_caption_step1_caught_witness :
    generate_caption convFailEnv ⟨"L", 0⟩ = "Error generating caption: closed image" :=
  generate_caption_step1_caught convFailEnv ⟨"L", 0⟩ "closed image" (by decide) rfl

/-- C2: an image whose color mode is not RGB is converted to RGB before being
passed to the processor, an already-RGB image is passed through without any
conversion call, and, under the PIL contract that a convert("RGB") result has
mode "RGB", every image on which the processor is called has mode "RGB". -/
theorem generate_caption_rgb_invariant (env : CaptionEnv) (image : PILImage) :
    (image.mode = "RGB" →
      (∀ i t, Event.convertCall i t ∉ (generate_caption_run env image).2) ∧
      (∀ p, Event.processCall p ∈ (generate_caption_run env image).2 → p = image)) ∧
    (image.mode ≠ "RGB" →
      (generate_caption_run env image).2.head? = some (Event.convertCall image "RGB") ∧
      (∀ converted, env.convert image "RGB" = Except.ok converted →
        ∀ p, Event.processCall p ∈ (generate_caption_run env image).2 → p = converted)) ∧
    ((∀ i j, env.convert i "RGB" = Except.ok j → j.mode = "RGB") →
      ∀ p, Event.processCall p ∈ (generate_caption_run env image).2 → p.mode = "RGB") := by
  rcases caption_run_cases env image with ⟨hm, hr⟩ | ⟨hm, e, hc, hr⟩ | ⟨hm, converted, hc, hr⟩
  · refine ⟨fun _ => ⟨fun i t => ?_, fun p hp => ?_⟩, fun h => absurd hm h,
      fun hcon p hp => ?_⟩
    · rw [hr]; exact convertCall_not_mem_core env image i t
    · rw [hr] at hp; exact processCall_mem_core env image p hp
    · rw [hr] at hp; rw [processCall_mem_core env image p hp]; exact hm
  · refine ⟨fun h => absurd h hm, fun _ => ⟨?_, fun conv2 hconv => ?_⟩,
      fun hcon p hp => ?_⟩
    · rw [hr]; rfl
    · rw [hc] at hconv; exact Except.noConfusion hconv
    · rw [hr] at hp; simp at hp
  · refine ⟨fun h => absurd h hm, fun _ => ⟨?_, fun conv2 hconv => ?_⟩,
      fun hcon p hp => ?_⟩
    · rw [hr]; rfl
    · rw [hc] at hconv
      injection hconv with h2
      subst h2
      intro p hp
      rw [hr] at hp
      rcases List.mem_cons.mp hp with h1 | h1
      · exact Event.noConfusion h1
      · exact processCall_mem_core env converted p h1
    · rw [hr] at hp
      rcases List.mem_cons.mp hp with h1 | h1
      · exact Event.noConfusion h1
      · rw [processCall_mem_core env converted p h1]
        exact hcon image converted hc

/-- A caption environment with PIL-conformant conversion: converting returns
an image whose mode is the requested target. -/
def rgbEnv : CaptionEnv :=
  ⟨fun i t => Except.ok ⟨t, i.payload⟩, fun _ => Except.ok ⟨0⟩,
    fun _ _ => Except.ok [[1]], fun _ _ => Except.ok "a dog"⟩

/-- Witness for C2: on a grayscale image under a PIL-conformant environment,
the processor is called and every processed image has mode "RGB". -/
theorem generate_caption_rgb_invariant_witness :
    Event.processCall ⟨"RGB", 7⟩ ∈ (generate_caption_run rgbEnv ⟨"L", 7⟩).2 ∧
      PILImage.mode ⟨"RGB", 7⟩ = "RGB" :=
  ⟨by decide,
    (generate_caption_rgb_invariant rgbEnv ⟨"L", 7⟩).2.2
      (fun i j h => by injection h with h2; subst h2; rfl)
      ⟨"RGB", 7⟩ (by decide)⟩

/-- C6: every inference call in the pipeline runs with gradient tracking
disabled and max_length 50; every decode call has skip_special_tokens True
and decodes the first sequence model.generate returned; a successful caption
is exactly such a decode result; and if model.generate honors its max_length
argument, every decoded token sequence has at most 50 tokens. -/
theorem generate_caption_inference_config (env : CaptionEnv) (image : PILImage) :
    (∀ inputs cfg, Event.generateCall inputs cfg ∈ (generate_caption_run env image).2 →
      cfg = ⟨true, 50⟩) ∧
    (∀ toks skip, Event.decodeCall toks skip ∈ (generate_caption_run env image).2 →
      skip = true ∧ ∃ inputs out,
        env.generate inputs ⟨true, 50⟩ = Except.ok out ∧ out.head? = some toks) ∧
    (∀ c, (generate_caption_run env image).1 = Except.ok c →
      ∃ toks, Event.decodeCall toks true ∈ (generate_caption_run env image).2 ∧
        env.decode toks true = Except.ok c) ∧
    ((∀ inputs cfg out, env.generate inputs cfg = Except.ok out →
        ∀ s ∈ out, s.length ≤ cfg.maxLength) →
      ∀ toks skip, Event.decodeCall toks skip ∈ (generate_caption_run env image).2 →
        toks.length ≤ 50) := by
  have key : ∀ img2,
      (∀ inputs cfg, Event.generateCall inputs cfg ∈ (generate_caption_core env img2).2 →
        cfg = ⟨true, 50⟩) ∧
      (∀ toks skip, Event.decodeCall toks skip ∈ (generate_caption_core env img2).2 →
        skip = true ∧ ∃ inputs out,
          env.generate inputs ⟨true, 50⟩ = Except.ok out ∧ out.head? = some toks) ∧
      (∀ c, (generate_caption_core env img2).1 = Except.ok c →
        ∃ toks, Event.decodeCall toks true ∈ (generate_caption_core env img2).2 ∧
          env.decode toks true = Except.ok c) := by
    intro img2
    refine ⟨fun inputs cfg h => (generateCall_mem_core env img2 inputs cfg h).1,
      fun toks skip h => ?_, fun c h => core_ok_decode env img2 c h⟩
    obtain ⟨hs, inputs, out, _, hg, hh⟩ := decodeCall_mem_core env img2 toks skip h
    exact ⟨hs, inputs, out, hg, hh⟩
  have cap : (∀ inputs cfg out, env.generate inputs cfg = Except.ok out →
        ∀ s ∈ out, s.length ≤ cfg.maxLength) →
      ∀ toks, (∃ inputs out,
        env.generate inputs ⟨true, 50⟩ = Except.ok out ∧ out.head? = some toks) →
      toks.length ≤ 50 := by
    intro hcap toks ⟨inputs, out, hg, hh⟩
    rcases out with _ | ⟨a, t⟩
    · exact absurd hh (by simp)
    · have ha : a = toks := by simpa using hh
      subst ha
      exact hcap inputs ⟨true, 50⟩ (a :: t) hg a (List.mem_cons_self a t)
  rcases caption_run_cases env image with ⟨hm, hr⟩ | ⟨hm, e, hc, hr⟩ | ⟨hm, converted, hc, hr⟩
  · refine ⟨fun inputs cfg h => (key image).1 inputs cfg (hr ▸ h),
      fun toks skip h => (key image).2.1 toks skip (hr ▸ h),
      fun c h => hr ▸ (key image).2.2 c (by rw [hr] at h; exact h),
      fun hcap toks skip h => cap hcap toks ((key image).2.1 toks skip (hr ▸ h)).2⟩
  · refine ⟨fun inputs cfg h => ?_, fun toks skip h => ?_, fun c h => ?_,
      fun hcap toks skip h => ?_⟩ <;> rw [hr] at h <;> simp at h
  · have hmem : ∀ ev, ev ∈ (generate_caption_run env image).2 →
        ev = Event.convertCall image "RGB" ∨
          ev ∈ (generate_caption_core env converted).2 := by
      intro ev hev
      rw [hr] at hev
      exact List.mem_cons.mp hev
    refine ⟨fun inputs cfg h => ?_, fun toks skip h => ?_, fun c h => ?_,
      fun hcap toks skip h => ?_⟩
    · rcases hmem _ h with h1 | h1
      · exact Event.noConfusion h1
      · exact (key converted).1 inputs cfg h1
    · rcases hmem _ h with h1 | h1
      · exact Event.noConfusion h1
      · exact (key converted).2.1 toks skip h1
    · rw [hr] at h
      obtain ⟨toks, hmem2, hdec⟩ := (key converted).2.2 c h
      refine ⟨toks, ?_, hdec⟩
      rw [hr]
      exact List.mem_cons_of_mem _ hmem2
    · rcases hmem _ h with h1 | h1
      · exact Event.noConfusion h1
      · exact cap hcap toks ((key converted).2.1 toks skip h1).2

/-- A caption environment whose generate call honors its max_length argument:
it returns one sequence of length min 2 max_length. -/
def capEnv : CaptionEnv :=
  ⟨fun i _ => Except.ok i, fun _ => Except.ok ⟨0⟩,
    fun _ cfg => Except.ok [List.range (min 2 cfg.maxLength)],
    fun _ _ => Except.ok "a dog"⟩

/-- Witness for C6: under a max_length-honoring environment the decoded
sequence is recorded and has at most 50 tokens. -/
theorem generate_caption_inference_config_witness :
    Event.decodeCall (List.range (min 2 50)) true ∈
        (generate_caption_run capEnv ⟨"RGB", 0⟩).2 ∧
      (List.range (min 2 50)).length ≤ 50 := by
  have hcap : ∀ inputs cfg out, capEnv.generate inputs cfg = Except.ok out →
      ∀ s ∈ out, s.length ≤ cfg.maxLength := by
    intro inputs cfg out hout s hs
    injection hout with h2
    subst h2
    have hs2 : s = List.range (min 2 cfg.maxLength) := by simpa using hs
    subst hs2
    simp [List.length_range]
  refine ⟨by decide, ?_⟩
  exact (generate_caption_inference_config capEnv ⟨"RGB", 0⟩).2.2.2 hcap
    (List.range (min 2 50)) true (by decide)

/-- A caption environment on which every step succeeds and the decoded
caption is the empty string. -/
def emptyCaptionEnv : CaptionEnv :=
  ⟨fun i _ => Except.ok i, fun _ => Except.ok ⟨0⟩, fun _ _ => Except.ok [[1, 2]],
    fun _ _ => Except.ok ""⟩

/-- Counterexample for C7: on an RGB image for which processing, inference
and decoding all succeed, generate_caption can return the empty string, which
is not a non-empty string; the non-emptiness claimed depends on the model,
not on the code. -/
theorem generate_caption_empty_success :
    PILImage.mode ⟨"RGB", 0⟩ = "RGB" ∧
    (generate_caption_run emptyCaptionEnv ⟨"RGB", 0⟩).1 = Except.ok "" ∧
    generate_caption emptyCaptionEnv ⟨"RGB", 0⟩ = "" := by
  refine ⟨rfl, ?_, ?_⟩ <;> rfl

/-- C7 amended: on a three-channel image on which steps 2 to 4 succeed,
generate_caption returns exactly the decoded caption; in particular, whenever
that caption is non-empty and not prefixed with "Error", so is the returned
string. -/
theorem generate_caption_success_passthrough (env : CaptionEnv) (image : PILImage)
    (c : String) (_hmode : image.mode = "RGB")
    (hok : (generate_caption_run env image).1 = Except.ok c) :
    generate_caption env image = c ∧
    (c ≠ "" → List.isPrefixOf "Error".toList c.toList = false →
      generate_caption env image ≠ "" ∧
        List.isPrefixOf "Error".toList (generate_caption env image).toList = false) := by
  have h : generate_caption env image = c := by simp [generate_caption, hok]
  exact ⟨h, fun h1 h2 => ⟨by rw [h]; exact h1, by rw [h]; exact h2⟩⟩

/-- A caption environment on which every step succeeds with a plain caption. -/
def happyEnv : CaptionEnv :=
  ⟨fun i _ => Except.ok i, fun _ => Except.ok ⟨1⟩, fun _ _ => Except.ok [[5]],
    fun _ _ => Except.ok "a dog"⟩

/-- Witness for the amended C7: a successful run returns the decoded caption,
non-empty and without the "Error" prefix on its character list. -/
theorem generate_caption_success_passthrough_witness :
    generate_caption happyEnv ⟨"RGB", 3⟩ ≠ "" ∧
      List.isPrefixOf "Error".toList (generate_caption happyEnv ⟨"RGB", 3⟩).toList =
        false :=
  (generate_caption_success_passthrough happyEnv ⟨"RGB", 3⟩ "a dog" rfl rfl).2
    (by decide) (by decide)

/-- C3: load_image_from_url issues exactly one HTTP GET with a 10-second
timeout (no retries); exactly one component of the returned pair is absent;
transport failures and 4xx or 5xx statuses yield no image and a
fetching-error message, an undecodable body yields no image and an
opening-error message, and success yields the decoded image and no error. -/
theorem load_image_from_url_spec (env : NetEnv) (url : String) :
    (load_image_from_url_run env url).2 = [(url, 10)] ∧
    ((load_image_from_url env url).1.isSome ↔ (load_image_from_url env url).2 = none) ∧
    (∀ e, env.get url 10 = Except.error e →
      load_image_from_url env url = (none, some ("Error fetching image: " ++ e))) ∧
    (∀ r, env.get url 10 = Except.ok r → 400 ≤ r.status → r.status ≤ 599 →
      load_image_from_url env url =
        (none, some ("Error fetching image: " ++
          (toString r.status ++ " Error for url")))) ∧
    (∀ r e, env.get url 10 = Except.ok r → ¬(400 ≤ r.status ∧ r.status ≤ 599) →
      env.imageOpen r.content = Except.error e →
      load_image_from_url env url = (none, some ("Error opening image: " ++ e))) ∧
    (∀ r image, env.get url 10 = Except.ok r → ¬(400 ≤ r.status ∧ r.status ≤ 599) →
      env.imageOpen r.content = Except.ok image →
      load_image_from_url env url = (some image, none)) := by
  rcases hg : env.get url 10 with e | r
  · simp only [load_image_from_url, load_image_from_url_run, hg]
    refine ⟨trivial, by simp, fun e2 he2 => ?_, fun r2 h _ _ => Except.noConfusion h,
      fun r2 e2 h _ _ => Except.noConfusion h, fun r2 img h _ _ => Except.noConfusion h⟩
    injection he2 with h3
    rw [h3]
  · by_cases hs : 400 ≤ r.status ∧ r.status ≤ 599
    · have hrf : raise_for_status r =
          Except.error (toString r.status ++ " Error for url") := by
        simp [raise_for_status, hs]
      simp only [load_image_from_url, load_image_from_url_run, hg, hrf]
      refine ⟨trivial, by simp, fun e2 he2 => Except.noConfusion he2,
        fun r2 h h1 h2 => ?_, fun r2 e2 h hneg _ => ?_, fun r2 img h hneg _ => ?_⟩
      · injection h with h3
        subst h3
        rfl
      · injection h with h3
        subst h3
        exact absurd hs hneg
      · injection h with h3
        subst h3
        exact absurd hs hneg
    · have hrf : raise_for_status r = Except.ok () := by
        simp [raise_for_status, hs]
      rcases hi : env.imageOpen r.content with e | img
      · simp only [load_image_from_url, load_image_from_url_run, hg, hrf, hi]
        refine ⟨trivial, by simp, fun e2 he2 => Except.noConfusion he2,
          fun r2 h h1 h2 => ?_, fun r2 e2 h _ he => ?_, fun r2 img2 h _ he => ?_⟩
        · injection h with h3
          subst h3
          exact absurd ⟨h1, h2⟩ hs
        · injection h with h3
          subst h3
          rw [hi] at he
          injection he with h4
          rw [h4]
        · injection h with h3
          subst h3
          rw [hi] at he
          exact Except.noConfusion he
      · simp only [load_image_from_url, load_image_from_url_run, hg, hrf, hi]
        refine ⟨trivial, by simp, fun e2 he2 => Except.noConfusion he2,
          fun r2 h h1 h2 => ?_, fun r2 e2 h _ he => ?_, fun r2 img2 h _ he => ?_⟩
        · injection h with h3
          subst h3
          exact absurd ⟨h1, h2⟩ hs
        · injection h with h3
          subst h3
          rw [hi] at he
          exact Except.noConfusion he
        · injection h with h3
          subst h3
          rw [hi] at he
          injection he with h4
          rw [h4]

/-- A network environment whose GET raises a transport error. -/
def downNetEnv : NetEnv :=
  ⟨fun _ _ => Except.error "connection timed out", fun _ => Except.ok ⟨"RGB", 0⟩⟩

/-- Witness for C3: a transport failure yields no image and the
fetching-error message. -/
theorem load_image_from_url_spec_witness :
    load_image_from_url downNetEnv "http://example.com/a.jpg" =
      (none, some ("Error fetching image: " ++ "connection timed out")) :=
  (load_image_from_url_spec downNetEnv "http://example.com/a.jpg").2.2.1
    "connection timed out" rfl

/-- C4: if either from_pretrained constructor raises, load_model does not
raise but returns the sentinel pair (None, None) and displays one formatted
human-readable error; on success it returns the constructed pair and
displays nothing. -/
theorem load_model_failure_sentinel (env : ModelEnv) :
    (∀ e, env.processorFromPretrained "Salesforce/blip-image-captioning-base" =
        Except.error e →
      load_model env = (none, none) ∧
        (load_model_run env).2 = ["Error loading model: " ++ e]) ∧
    (∀ p e, env.processorFromPretrained "Salesforce/blip-image-captioning-base" =
        Except.ok p →
      env.modelFromPretrained "Salesforce/blip-image-captioning-base" =
        Except.error e →
      load_model env = (none, none) ∧
        (load_model_run env).2 = ["Error loading model: " ++ e]) ∧
    (∀ p m, env.processorFromPretrained "Salesforce/blip-image-captioning-base" =
        Except.ok p →
      env.modelFromPretrained "Salesforce/blip-image-captioning-base" =
        Except.ok m →
      load_model env = (some p, some m) ∧ (load_model_run env).2 = []) := by
  refine ⟨fun e he => ?_, fun p e hp he => ?_, fun p m hp hm => ?_⟩ <;>
    simp [load_model, load_model_run, *]

/-- A model environment whose processor construction raises. -/
def brokenModelEnv : ModelEnv :=
  ⟨fun _ => Except.error "no weights", fun _ => Except.ok ⟨0⟩⟩

/-- Witness for C4: a failing constructor yields the (None, None) sentinel
and the formatted error display. -/
theorem load_model_failure_sentinel_witness :
    load_model brokenModelEnv = (none, none) ∧
      (load_model_run brokenModelEnv).2 = ["Error loading model: " ++ "no weights"] :=
  (load_model_failure_sentinel brokenModelEnv).1 "no weights" rfl

/-- Once the cache holds a value, later requests reuse it and never run the
load_model body again. -/
theorem caption_session_warm (env : ModelEnv) (v : ModelHandle) :
    ∀ n, caption_session env n (some v) = (List.replicate n v, 0) := by
  intro n
  induction n with
  | zero => rfl
  | succ n ih => simp [caption_session, cache_resource, ih, List.replicate_succ]

/-- C5: over a whole process lifetime of n caption requests starting from an
empty cache, the load_model body runs min n 1 times, i.e. at most once, and
every request uses the same memoized handle. -/
theorem load_model_memoized (env : ModelEnv) (n : Nat) :
    caption_session env n none = (List.replicate n (load_model env), min n 1) := by
  cases n with
  | zero => rfl
  | succ n =>
      have h1 : min (n + 1) 1 = 1 := by omega
      simp [caption_session, cache_resource, caption_session_warm,
        List.replicate_succ, h1]

/-- A model environment whose constructors both raise. -/
def downModelEnv : ModelEnv :=
  ⟨fun _ => Except.error "dns failure", fun _ => Except.error "dns failure"⟩

/-- C8: when the memoized load_model result has an absent component, startup
displays the failure message and halts, and no caption request is processed
in that session. -/
theorem model_load_failure_fatal (menv : ModelEnv) (cenv : CaptionEnv)
    (requests : List PILImage)
    (h : (load_model menv).1 = none ∨ (load_model menv).2 = none) :
    app_startup menv =
      AppStart.halted
        "Failed to load the model. Please refresh the page or check your internet connection." ∧
      app_captions menv cenv requests = [] := by
  rcases hm : load_model menv with ⟨op, om⟩
  rw [hm] at h
  simp only at h
  have hs : app_startup menv =
      AppStart.halted
        "Failed to load the model. Please refresh the page or check your internet connection." := by
    unfold app_startup
    rw [hm]
    rcases h with h | h <;> subst h
    · cases om <;> rfl
    · cases op <;> rfl
  refine ⟨hs, ?_⟩
  unfold app_captions
  rw [hs]

/-- Witness for C8: with both constructors failing, startup halts and a
request list yields no captions. -/
theorem model_load_failure_fatal_witness :
    app_startup downModelEnv =
      AppStart.halted
        "Failed to load the model. Please refresh the page or check your internet connection." ∧
      app_captions downModelEnv happyEnv [⟨"RGB", 0⟩] = [] :=
  model_load_failure_fatal downModelEnv happyEnv [⟨"RGB", 0⟩] (Or.inl rfl)

/-- Captioning a concatenation of request lists captions each list in turn:
no state flows from one invocation to the next. -/
theorem session_captions_append (env : CaptionEnv) :
    ∀ l1 l2, session_captions env (l1 ++ l2) =
      session_captions env l1 ++ session_captions env l2 := by
  intro l1 l2
  induction l1 with
  | nil => rfl
  | cons a t ih => simp [session_captions, ih]

/-- C9: generate_caption is stateless and independent: the caption of an
image is the same whatever invocations preceded it, so two runs on the same
image with the same model handle return the same caption string. -/
theorem generate_caption_stateless (env : CaptionEnv) (pre1 pre2 : List PILImage)
    (image : PILImage) :
    session_captions env (pre1 ++ [image]) =
      session_captions env pre1 ++ [generate_caption env image] ∧
    (session_captions env (pre1 ++ [image])).getLast? =
      (session_captions env (pre2 ++ [image])).getLast? := by
  have h : ∀ pre, session_captions env (pre ++ [image]) =
      session_captions env pre ++ [generate_caption env image] := by
    intro pre
    rw [session_captions_append]
    rfl
  refine ⟨h pre1, ?_⟩
  rw [h pre1, h pre2]
  simp

end AIImageCaptioner
